import Mathlib

/-!
Verification development for the library-catalog service
(FastAPI application: `app/crud/books.py`, `app/schemas/books.py`,
`app/routers/books.py`, `app/database.py`, `app/services/openlibrary_api.py`).

The embedding is shallow:
* pydantic models become Lean structures; a Python dict holding a book
  record becomes `BookDict` (each key optionally present, plus a list of
  unexpected extra keys, which matters because every pydantic model in the
  source sets `extra = "forbid"`);
* the two whole-document JSON backends (`FileRepository`, `JsonBinRepository`)
  share their persisted shape `{"books": [...], "next_id": N}` and all of
  their id/counter logic verbatim, so both are modelled by one state type
  `JsonState`;
* the relational backend (`DbPostgresRepository`) becomes `DbState`, a list
  of rows; a `fail : Bool` oracle models "the underlying query/commit raised"
  for the write operations, whose try/except/rollback/re-raise structure is
  translated explicitly;
* Python exceptions become `Except PyErr`; a function that can leave a
  mutation behind before raising returns a `Except ... × State` pair where
  the second component is the state after the call;
* `float` ratings are modelled as `ℚ` (no float arithmetic is performed by
  the source: ratings are only stored, compared for truthiness and returned);
* pydantic's `HttpUrl` syntactic validation is not modelled: `cover_url`
  is a plain optional string (no claim depends on URL well-formedness).
-/

/-- AvailabilityStatus enum from `app/schemas/books.py`. -/
inductive AvailabilityStatus
  | available
  | borrowed
deriving Repr, DecidableEq

/-- Python exception classes that the modelled code can raise. -/
inductive PyErr
  | keyError
  | typeError
  | indexError
  | attributeError
  | valueError
  | validationError
  | dbError
  | netError
deriving Repr, DecidableEq

/-- EnrichBookData from `app/schemas/books.py`: the result of
`OpenLibraryApi.enrich_book_data`. -/
structure EnrichBookData where
  cover_url : Option String := none
  description : Option String := none
  rating : Option ℚ := none
deriving Repr, DecidableEq

/-- Book from `app/schemas/books.py` (also used for rows of the relational
table in `app/models/books.py`, whose column list is identical). -/
structure Book where
  id : Int
  title : String
  author : String
  publication_year : Int
  genre : String
  pages : Int
  availability : AvailabilityStatus
  cover_url : Option String := none
  description : Option String := none
  rating : Option ℚ := none
deriving Repr, DecidableEq

/-- A Python dict holding a (possibly partial) book record, as stored in the
JSON backends and as built by `BookCrudService.update`.  Each field is
`none` when the key is absent.  `extra` lists unexpected keys present in the
dict (the source's `update` adds the key `"asdasd"`); their values are
irrelevant to every claim, only their presence (pydantic `extra = "forbid"`
rejects any such dict). -/
structure BookDict where
  id : Option Int := none
  title : Option String := none
  author : Option String := none
  publication_year : Option Int := none
  genre : Option String := none
  pages : Option Int := none
  availability : Option AvailabilityStatus := none
  cover_url : Option String := none
  description : Option String := none
  rating : Option ℚ := none
  extra : List String := []
deriving Repr, DecidableEq

/-- BookCreate from `app/schemas/books.py`: all core fields required,
`availability` defaulting to available at validation time (so always present
after validation). -/
structure BookCreate where
  title : String
  author : String
  publication_year : Int
  genre : String
  pages : Int
  availability : AvailabilityStatus := .available
deriving Repr, DecidableEq

/-- Model of `BookCreate.model_dump()`: the dict has exactly the six core
keys (no id, no enrichment keys). -/
def BookCreate.model_dump (b : BookCreate) : BookDict :=
  { title := some b.title
    author := some b.author
    publication_year := some b.publication_year
    genre := some b.genre
    pages := some b.pages
    availability := some b.availability }

/-- BookUpdate from `app/schemas/books.py`, as seen through
`model_dump(exclude_unset=True)`: a field is `some v` exactly when the
client explicitly supplied it.  (A field explicitly supplied as JSON `null`
is not modelled; no claim exercises that corner.) -/
structure BookUpdate where
  title : Option String := none
  author : Option String := none
  publication_year : Option Int := none
  genre : Option String := none
  pages : Option Int := none
  availability : Option AvailabilityStatus := none
deriving Repr, DecidableEq

/-- Overwrite helper for `dict.update`: a key present in the update payload
replaces the current value, an absent key leaves it. -/
def ow {α : Type} (new old : Option α) : Option α :=
  match new with
  | some v => some v
  | none => old

/-- Model of `book_dict = current_book.copy(); book_dict.update(update_data)`
in `BookCrudService.update` (JSON branch). -/
def BookDict.updateWith (d : BookDict) (u : BookUpdate) : BookDict :=
  { d with
    title := ow u.title d.title
    author := ow u.author d.author
    publication_year := ow u.publication_year d.publication_year
    genre := ow u.genre d.genre
    pages := ow u.pages d.pages
    availability := ow u.availability d.availability }

/-- Line `if enriched_data.cover_url: book_dict["cover_url"] = str(...)`.
A present `HttpUrl` is always truthy in pydantic v2, so the guard is
key-presence. -/
def setCover (d : BookDict) (c : Option String) : BookDict :=
  match c with
  | some u => { d with cover_url := some u }
  | none => d

/-- Line `if enriched_data.description: book_dict["description"] = ...`.
Python string truthiness: the empty string is falsy. -/
def setDesc (d : BookDict) (s? : Option String) : BookDict :=
  match s? with
  | some s => if s = "" then d else { d with description := some s }
  | none => d

/-- Line `if enriched_data.rating: book_dict["rating"] = ...`.
Python float truthiness: `0.0` is falsy. -/
def setRating (d : BookDict) (q? : Option ℚ) : BookDict :=
  match q? with
  | some q => if q = 0 then d else { d with rating := some q }
  | none => d

/-- The enrichment-merge block shared verbatim by `BookCrudService.create`
(lines 135-140) and `BookCrudService.update` (lines 200-205): each of the
three enrichment fields is written into the dict only when truthy. -/
def applyEnrichment (d : BookDict) (e : EnrichBookData) : BookDict :=
  setRating (setDesc (setCover d e.cover_url) e.description) e.rating

/-- Spec-side normalisation: drop enrichment values that Python truthiness
treats as absent (empty description, zero rating).  Used to state claim C10:
merging a falsy value must equal merging no value. -/
def truthyNorm (e : EnrichBookData) : EnrichBookData :=
  { cover_url := e.cover_url
    description := match e.description with
      | some s => if s = "" then none else some s
      | none => none
    rating := match e.rating with
      | some q => if q = 0 then none else some q
      | none => none }

/-- Validation `Book(**book_dict)`: `extra = "forbid"` rejects any
unexpected key; `id`..`pages` are required; `availability` defaults to
available; the enrichment fields default to `None`. -/
def Book.fromDict (d : BookDict) : Except PyErr Book :=
  if !d.extra.isEmpty then .error .validationError
  else
    match d.id, d.title, d.author, d.publication_year, d.genre, d.pages with
    | some i, some t, some a, some y, some g, some p =>
        .ok { id := i, title := t, author := a, publication_year := y,
              genre := g, pages := p,
              availability := d.availability.getD .available,
              cover_url := d.cover_url, description := d.description,
              rating := d.rating }
    | _, _, _, _, _, _ => .error .validationError

/-- Validation `FullBookData(**data)` used by the relational backend's
`save_data`/`update_data`: same keys but `availability` is required and has
no default. -/
def FullBookData.fromDict (d : BookDict) : Except PyErr Book :=
  if !d.extra.isEmpty then .error .validationError
  else
    match d.id, d.title, d.author, d.publication_year, d.genre, d.pages,
          d.availability with
    | some i, some t, some a, some y, some g, some p, some av =>
        .ok { id := i, title := t, author := a, publication_year := y,
              genre := g, pages := p, availability := av,
              cover_url := d.cover_url, description := d.description,
              rating := d.rating }
    | _, _, _, _, _, _, _ => .error .validationError

/-- A dict is a complete well-formed record: `Book(**d)` would succeed. -/
def dictOk (d : BookDict) : Bool :=
  d.id.isSome && d.title.isSome && d.author.isSome &&
  d.publication_year.isSome && d.genre.isSome && d.pages.isSome &&
  d.extra.isEmpty

/-- The Book a complete dict validates to (meaningful under `dictOk`). -/
def bookOf (d : BookDict) : Book :=
  { id := d.id.getD 0, title := d.title.getD "", author := d.author.getD "",
    publication_year := d.publication_year.getD 0, genre := d.genre.getD "",
    pages := d.pages.getD 0,
    availability := d.availability.getD .available,
    cover_url := d.cover_url, description := d.description,
    rating := d.rating }

/-- The enrichment provider as seen by the catalog service: the service only
calls `enrich_book_data(title)`, which (claim C7) always returns an
`EnrichBookData`; the service layer is therefore parametrised by a total
provider function. -/
def Provider : Type := String → EnrichBookData

/-- A provider whose enrichment always comes back empty. -/
def emptyProvider : Provider := fun _ => {}

/-! ### JSON (file / jsonbin) backend state and the service operations on it

`FileRepository` and `JsonBinRepository` in `app/database.py` persist one
document `{"books": [...], "next_id": N}`; both implement `_get_next_id` as
`load_data().get("next_id", 1)` and `_update_next_id` as
`data["next_id"] += 1`.  Every state reachable through the service keeps the
`next_id` key, so the state carries it directly. -/

/-- The persisted JSON document of the file/jsonbin backends. -/
structure JsonState where
  books : List BookDict
  next_id : Int
deriving Repr, DecidableEq

/-- ASCII lowering of one character (model of `str.lower` for the ASCII
range; all claim inputs are ASCII). -/
def lowerChar (c : Char) : Char :=
  if 'A' ≤ c ∧ c ≤ 'Z' then Char.ofNat (c.toNat + 32) else c

/-- Model of Python `str.lower()`. -/
def lowerStr (s : String) : String := String.mk (s.data.map lowerChar)

/-- Availability filter check, `if availability and book_data["availability"]
!= availability: continue` (an enum value is always truthy). -/
def json_filter_keep3 (avail : Option AvailabilityStatus) (d : BookDict) :
    Except PyErr Bool :=
  match avail with
  | some v =>
      match d.availability with
      | none => .error .keyError
      | some s => .ok (s == v)
  | none => .ok true

/-- Genre filter check, `if genre and book_data["genre"].lower() !=
genre.lower(): continue` (an empty filter string is falsy). -/
def json_filter_keep2 (genre : Option String)
    (avail : Option AvailabilityStatus) (d : BookDict) : Except PyErr Bool :=
  match genre with
  | some g =>
      if g = "" then json_filter_keep3 avail d
      else
        match d.genre with
        | none => .error .keyError
        | some s =>
            if lowerStr s == lowerStr g then json_filter_keep3 avail d
            else .ok false
  | none => json_filter_keep3 avail d

/-- The filter block of `BookCrudService.get_all` (JSON branch): author,
then genre, then availability; a mismatch skips the record, a missing key
raises KeyError. -/
def json_filter_keep (author genre : Option String)
    (avail : Option AvailabilityStatus) (d : BookDict) : Except PyErr Bool :=
  match author with
  | some a =>
      if a = "" then json_filter_keep2 genre avail d
      else
        match d.author with
        | none => .error .keyError
        | some s =>
            if lowerStr s == lowerStr a then json_filter_keep2 genre avail d
            else .ok false
  | none => json_filter_keep2 genre avail d

/-- The loop of `get_all` (JSON branch): keep the matching dicts, validating
each kept one with `Book(**book_data)`. -/
def json_collect (author genre : Option String)
    (avail : Option AvailabilityStatus) :
    List BookDict → Except PyErr (List Book)
  | [] => .ok []
  | d :: ds =>
      match json_filter_keep author genre avail d with
      | .error e => .error e
      | .ok true =>
          match Book.fromDict d with
          | .error e => .error e
          | .ok b =>
              match json_collect author genre avail ds with
              | .error e => .error e
              | .ok rest => .ok (b :: rest)
      | .ok false => json_collect author genre avail ds

/-- `BookCrudService.get_all` (JSON branch): filter the whole collection,
then slice `filtered_books[offset : offset + limit]`. -/
def get_all_json (s : JsonState) (offset limit : Nat)
    (author genre : Option String) (avail : Option AvailabilityStatus) :
    Except PyErr (List Book) :=
  match json_collect author genre avail s.books with
  | .error e => .error e
  | .ok l => .ok ((l.drop offset).take limit)

/-- The scan loop of `BookCrudService.get_by_id` (JSON branch):
first dict with this id is validated and returned. -/
def json_find_book (book_id : Int) : List BookDict → Except PyErr (Option Book)
  | [] => .ok none
  | d :: ds =>
      match d.id with
      | none => .error .keyError
      | some i =>
          if i == book_id then
            match Book.fromDict d with
            | .error e => .error e
            | .ok b => .ok (some b)
          else json_find_book book_id ds

/-- `BookCrudService.get_by_id` (JSON branch). -/
def get_by_id_json (s : JsonState) (book_id : Int) :
    Except PyErr (Option Book) :=
  json_find_book book_id s.books

/-- `BookCrudService.create` (JSON branch): dump the payload, assign
`_get_next_id()`, enrich and merge, validate `Book(**book_dict)`, then
append the dict and bump the counter. -/
def create_json (s : JsonState) (b : BookCreate) (p : Provider) :
    Except PyErr (Book × JsonState) :=
  let book_dict :=
    applyEnrichment { b.model_dump with id := some s.next_id } (p b.title)
  match Book.fromDict book_dict with
  | .error e => .error e
  | .ok new_book =>
      .ok (new_book, { books := s.books ++ [book_dict],
                       next_id := s.next_id + 1 })

/-- First loop of `BookCrudService.update` (JSON branch): locate the current
dict. -/
def json_find_dict (book_id : Int) :
    List BookDict → Except PyErr (Option BookDict)
  | [] => .ok none
  | d :: ds =>
      match d.id with
      | none => .error .keyError
      | some i =>
          if i == book_id then .ok (some d) else json_find_dict book_id ds

/-- Second loop of `update` (JSON branch): replace the first dict with this
id by the merged dict. -/
def json_replace (book_id : Int) (nd : BookDict) :
    List BookDict → Except PyErr (Option (List BookDict))
  | [] => .ok none
  | d :: ds =>
      match d.id with
      | none => .error .keyError
      | some i =>
          if i == book_id then .ok (some (nd :: ds))
          else
            match json_replace book_id nd ds with
            | .error e => .error e
            | .ok none => .ok none
            | .ok (some l) => .ok (some (d :: l))

/-- `BookCrudService.update` (JSON branch).  When `title` is among the
supplied fields the merged dict additionally receives the stray key
`"asdasd"` (source line `book_dict["asdasd"] = 5`).  The collection is
persisted BEFORE `Book(**book_dict)` runs, so a validation failure leaves
the new dict saved; the pair's second component is the state after the
call. -/
def update_json (s : JsonState) (book_id : Int) (u : BookUpdate)
    (p : Provider) : Except PyErr (Option Book) × JsonState :=
  match json_find_dict book_id s.books with
  | .error e => (.error e, s)
  | .ok none => (.ok none, s)
  | .ok (some current) =>
      let book_dict0 := { current.updateWith u with id := some book_id }
      let book_dict :=
        match u.title with
        | some t =>
            let enriched := applyEnrichment book_dict0 (p t)
            { enriched with extra := enriched.extra ++ ["asdasd"] }
        | none => book_dict0
      match json_replace book_id book_dict s.books with
      | .error e => (.error e, s)
      | .ok none => (.ok none, s)
      | .ok (some books') =>
          (match Book.fromDict book_dict with
           | .error e => .error e
           | .ok b => .ok (some b),
           { s with books := books' })

/-- The list comprehension of `delete` (JSON branch): every element's
`"id"` key is read (KeyError on a dict lacking it), matching dicts are
dropped. -/
def json_remove (book_id : Int) : List BookDict → Except PyErr (List BookDict)
  | [] => .ok []
  | d :: ds =>
      match d.id with
      | none => .error .keyError
      | some i =>
          match json_remove book_id ds with
          | .error e => .error e
          | .ok l => .ok (if i == book_id then l else d :: l)

/-- `BookCrudService.delete` (JSON branch): existence check via
`get_by_id`, then rewrite the document without the record (the `next_id`
counter is NOT decreased). -/
def delete_json (s : JsonState) (book_id : Int) :
    Except PyErr (Bool × JsonState) :=
  match get_by_id_json s book_id with
  | .error e => .error e
  | .ok none => .ok (false, s)
  | .ok (some _) =>
      match json_remove book_id s.books with
      | .error e => .error e
      | .ok books' => .ok (true, { s with books := books' })

/-! ### Relational (PostgreSQL) backend state and the service operations

`DbPostgresRepository` in `app/database.py`: one row per book.  Each write
operation runs in a try/except: on any storage exception it rolls the
transaction back; `save_data` re-raises the caught exception, `update_data`
re-raises as ValueError, `delete_data` only logs (NO re-raise).  The
`fail : Bool` argument models "the query/commit raised" inside that try
block; rollback is modelled by returning the unchanged state. -/

/-- The relational table. -/
structure DbState where
  rows : List Book
deriving Repr, DecidableEq

/-- The id of the row returned by
`query.order_by(id.desc()).first()`: the maximum id, `none` on an empty
table. -/
def db_max_row_id : List Book → Option Int
  | [] => none
  | r :: rs => some (rs.foldl (fun acc x => max acc x.id) r.id)

/-- `DbPostgresRepository._get_next_id`: `max id + 1`, or 1 when the table
is empty. -/
def db_next_id (db : DbState) : Int :=
  match db_max_row_id db.rows with
  | some m => m + 1
  | none => 1

/-- `DbPostgresRepository.load_data`: `filter_by(**filters)` is SQL equality
(case-sensitive on text columns), then offset/limit. -/
def db_load_data (db : DbState) (offset limit : Nat)
    (author genre : Option String) (avail : Option AvailabilityStatus) :
    List Book :=
  (((db.rows.filter (fun r =>
      (match author with | some a => r.author == a | none => true) &&
      (match genre with | some g => r.genre == g | none => true) &&
      (match avail with
       | some v => r.availability == v
       | none => true))).drop offset).take limit)

/-- Truthiness filter applied by `get_all` when building `filter_params`:
`if author: filter_params["author"] = author` (None and "" are falsy). -/
def truthyOptStr (o : Option String) : Option String :=
  match o with
  | some a => if a = "" then none else some a
  | none => none

/-- `BookCrudService.get_all` (DB branch): push the truthy filters into the
query; `_convert_model_to_schema` copies the row's fields one-to-one. -/
def get_all_db (db : DbState) (offset limit : Nat)
    (author genre : Option String) (avail : Option AvailabilityStatus) :
    List Book :=
  db_load_data db offset limit (truthyOptStr author) (truthyOptStr genre) avail

/-- `DbPostgresRepository.get_data_by_id` / `BookCrudService.get_by_id`
(DB branch): first row with this id. -/
def get_by_id_db (db : DbState) (book_id : Int) : Option Book :=
  db.rows.find? (fun r => r.id == book_id)

/-- `DbPostgresRepository.save_data`: validate the dict as
`FullBookData` (a failure raises ValueError), then INSERT + commit;
any exception in the block is rolled back and re-raised. -/
def db_save_data (db : DbState) (fail : Bool) (d : BookDict) :
    Except PyErr Unit × DbState :=
  match FullBookData.fromDict d with
  | .error _ => (.error .valueError, db)
  | .ok row =>
      if fail then (.error .dbError, db)
      else (.ok (), { rows := db.rows ++ [row] })

/-- `BookCrudService.create` (DB branch): id from `_get_next_id`, enrich and
merge, validate `Book(**book_dict)`, then `save_data(book_dict)`. -/
def create_db (db : DbState) (b : BookCreate) (p : Provider) (fail : Bool) :
    Except PyErr Book × DbState :=
  let book_dict :=
    applyEnrichment { b.model_dump with id := some (db_next_id db) }
      (p b.title)
  match Book.fromDict book_dict with
  | .error e => (.error e, db)
  | .ok new_book =>
      match db_save_data db fail book_dict with
      | (.error e, db') => (.error e, db')
      | (.ok _, db') => (.ok new_book, db')

/-- Model of Python `str(x)` on an optional string: `str(None) = "None"`
(the source's `update_data` does `book.cover_url = str(book_data["cover_url"])`
unconditionally). -/
def pyStrOfOptStr (o : Option String) : String :=
  match o with
  | some s => s
  | none => "None"

/-- The dict `update_data` returns after a successful row update (every key
present). -/
def rowToDict (r : Book) : BookDict :=
  { id := some r.id, title := some r.title, author := some r.author,
    publication_year := some r.publication_year, genre := some r.genre,
    pages := some r.pages, availability := some r.availability,
    cover_url := r.cover_url, description := r.description,
    rating := r.rating }

/-- Replace the first row with the given id. -/
def replaceRow (book_id : Int) (nr : Book) : List Book → List Book
  | [] => []
  | r :: rs =>
      if r.id == book_id then nr :: rs else r :: replaceRow book_id nr rs

/-- `DbPostgresRepository.update_data`: validate the dict as `FullBookData`
(raising ValueError on failure — note the dict built by the service for a
partial update only has the supplied keys), then overwrite every column of
the first matching row (`cover_url` goes through `str(...)`, so an absent
cover is stored as the string "None"); any storage exception is rolled back
and re-raised as ValueError. -/
def db_update_data (db : DbState) (fail : Bool) (d : BookDict) :
    Except PyErr (Option BookDict) × DbState :=
  match FullBookData.fromDict d with
  | .error _ => (.error .valueError, db)
  | .ok v =>
      if fail then (.error .valueError, db)
      else
        match db.rows.find? (fun r => r.id == v.id) with
        | none => (.ok none, db)
        | some row =>
            let newRow : Book :=
              { id := row.id, title := v.title, author := v.author,
                publication_year := v.publication_year, genre := v.genre,
                pages := v.pages, availability := v.availability,
                cover_url := some (pyStrOfOptStr v.cover_url),
                description := v.description, rating := v.rating }
            (.ok (some (rowToDict newRow)),
             { rows := replaceRow v.id newRow db.rows })

/-- `BookCrudService.update` (DB branch): load the current row (None → 404),
build the dict of supplied fields plus the id, enrich (and add the stray
`"asdasd"` key) when `title` was supplied, call `update_data`, and validate
the returned dict as `Book`. -/
def update_db (db : DbState) (book_id : Int) (u : BookUpdate) (p : Provider)
    (fail : Bool) : Except PyErr (Option Book) × DbState :=
  match get_by_id_db db book_id with
  | none => (.ok none, db)
  | some _ =>
      let book_dict0 : BookDict :=
        { id := some book_id, title := u.title, author := u.author,
          publication_year := u.publication_year, genre := u.genre,
          pages := u.pages, availability := u.availability }
      let book_dict :=
        match u.title with
        | some t =>
            let enriched := applyEnrichment book_dict0 (p t)
            { enriched with extra := enriched.extra ++ ["asdasd"] }
        | none => book_dict0
      match db_update_data db fail book_dict with
      | (.error e, db') => (.error e, db')
      | (.ok none, db') => (.ok none, db')
      | (.ok (some dict), db') =>
          (match Book.fromDict dict with
           | .error e => .error e
           | .ok b => .ok (some b), db')

/-- Remove the first row with the given id (`query.filter(...).first()` then
`session.delete`). -/
def removeFirstRow (book_id : Int) : List Book → List Book
  | [] => []
  | r :: rs => if r.id == book_id then rs else r :: removeFirstRow book_id rs

/-- `DbPostgresRepository.delete_data`: delete + commit inside a try block
whose except clause rolls back and only LOGS — the exception is swallowed,
the caller observes a normal return. -/
def db_delete_data (db : DbState) (fail : Bool) (book_id : Int) : DbState :=
  if fail then db
  else { rows := removeFirstRow book_id db.rows }

/-- `BookCrudService.delete` (DB branch): existence check via `get_by_id`,
then `delete_data`; returns True whenever the record existed, regardless of
what the storage did. -/
def delete_db (db : DbState) (fail : Bool) (book_id : Int) : Bool × DbState :=
  match get_by_id_db db book_id with
  | none => (false, db)
  | some _ => (true, db_delete_data db fail book_id)

/-! ### Router layer (`app/routers/books.py`, PUT /books/{id})

`update_book` receives `book_update: Optional[BookUpdate] = None`; FastAPI
parses an absent request body to `None` and the body `{}` to a `BookUpdate`
with no field set.  Only `None` is rejected with 400; an unhandled service
exception becomes a 500. -/

/-- HTTP outcome of the route PUT on a single book id. -/
inductive Resp
  | okBook (b : Book)
  | badRequest
  | notFound
  | serverError
deriving Repr, DecidableEq

/-- `update_book` route over the JSON backend. -/
def update_book_route (s : JsonState) (book_id : Int)
    (body : Option BookUpdate) (p : Provider) : Resp × JsonState :=
  match body with
  | none => (.badRequest, s)
  | some u =>
      match update_json s book_id u p with
      | (.ok none, s') => (.notFound, s')
      | (.ok (some b), s') => (.okBook b, s')
      | (.error _, s') => (.serverError, s')

/-! ### OpenLibrary enrichment pipeline (`app/services/openlibrary_api.py`)

The external transport is an oracle: every GET endpoint the client can hit
maps to an outcome (a JSON body, an `aiohttp.ClientError`, a JSON parse
`ValueError`, or some other raised exception), and the HEAD probe of the
cover endpoint maps to a status code or a raised exception.  The dict/list
operations the source performs on response bodies are translated with
Python semantics (KeyError / TypeError / AttributeError / IndexError on the
corresponding misuses), because every function in the pipeline wraps its
body in `try: ... except Exception: return None` and the claims are about
exactly this error discipline. -/

/-- A JSON value. -/
inductive Json
  | null
  | bool (b : Bool)
  | num (q : ℚ)
  | str (s : String)
  | arr (l : List Json)
  | obj (l : List (String × Json))

/-- The GET endpoints `make_request` is called with (the f-string arguments
are already rendered to strings). -/
inductive Endpoint
  | search (q : String)
  | details (key : String)
  | editions (key : String)
  | ratings (work_id : String)
deriving Repr, DecidableEq

/-- Outcome of one GET request as seen inside `make_request`. -/
inductive RespOutcome
  | ok (j : Json)
  | clientError
  | parseError
  | raised (e : PyErr)

/-- Outcome of the HEAD probe in `get_cover_url`. -/
inductive HeadOutcome
  | status (code : Nat)
  | raised (e : PyErr)

/-- The external service, as an oracle. -/
structure Transport where
  resp : Endpoint → RespOutcome
  head : String → HeadOutcome

/-- Python truthiness of a JSON value. -/
def jsonTruthy : Json → Bool
  | .null => false
  | .bool b => b
  | .num q => !(q == 0)
  | .str s => !(s == "")
  | .arr l => !l.isEmpty
  | .obj l => !l.isEmpty

/-- Key lookup in an object (first binding wins, as in a Python dict there
is only one). -/
def jLookup (l : List (String × Json)) (k : String) : Option Json :=
  (l.find? (fun p => p.1 == k)).map (fun p => p.2)

/-- Python `x.get(k)`: `None` default on a dict, AttributeError on
anything else. -/
def pyGet (j : Json) (k : String) : Except PyErr (Option Json) :=
  match j with
  | .obj l => .ok (jLookup l k)
  | _ => .error .attributeError

/-- Python `x > 0` for the `numFound` check (`True > 0` is `True`;
comparing None/str/list/dict with an int raises TypeError). -/
def pyGtZero (j : Json) : Except PyErr Bool :=
  match j with
  | .num q => .ok (decide (0 < q))
  | .bool b => .ok b
  | _ => .error .typeError

/-- Python `len(x)`. -/
def pyLen (j : Json) : Except PyErr Nat :=
  match j with
  | .arr l => .ok l.length
  | .str s => .ok s.length
  | .obj l => .ok l.length
  | _ => .error .typeError

/-- Python `x[k]` with a string key. -/
def pyIndexKey (j : Json) (k : String) : Except PyErr Json :=
  match j with
  | .obj l =>
      match jLookup l k with
      | some v => .ok v
      | none => .error .keyError
  | _ => .error .typeError

/-- Python `x[0]`. -/
def pyIndexZero (j : Json) : Except PyErr Json :=
  match j with
  | .arr (x :: _) => .ok x
  | .arr [] => .error .indexError
  | .str s =>
      match s.data with
      | c :: _ => .ok (.str (String.mk [c]))
      | [] => .error .indexError
  | .obj _ => .error .keyError
  | _ => .error .typeError

/-- Substring test on character lists. -/
def charsContains (needle : List Char) : List Char → Bool
  | [] => needle.isEmpty
  | c :: t => needle.isPrefixOf (c :: t) || charsContains needle t

/-- Model of Python `pat in s` for strings. -/
def strContains (s pat : String) : Bool := charsContains pat.data s.data

/-- String equality with a Json value, for `.. == "/type/text"` (Python
`==` against a non-string is simply False, never an error). -/
def jsonEqStr (j : Json) (s : String) : Bool :=
  match j with
  | .str t => t == s
  | _ => false

/-- Python `needle in j` (substring / list membership / dict key test;
TypeError otherwise). -/
def pyContains (needle : String) (j : Json) : Except PyErr Bool :=
  match j with
  | .str s => .ok (strContains s needle)
  | .arr l => .ok (l.any (fun x => jsonEqStr x needle))
  | .obj l => .ok (l.any (fun p => p.1 == needle))
  | _ => .error .typeError

/-- Last component of a '/'-separated character list
(`s.split('/')[-1]`). -/
def splitLastSlash : List Char → List Char → List Char
  | [], acc => acc.reverse
  | c :: cs, acc =>
      if c = '/' then splitLastSlash cs [] else splitLastSlash cs (c :: acc)

/-- Python `s.split('/')[-1]`. -/
def strLastSlash (s : String) : String := String.mk (splitLastSlash s.data [])

/-- Python `x.split('/')[-1]` on a Json value: AttributeError unless it is
a string. -/
def pySplitLast (j : Json) : Except PyErr Json :=
  match j with
  | .str s => .ok (.str (strLastSlash s))
  | _ => .error .attributeError

/-- Decimal digits of a natural number (fuel-structured so that it reduces
in the kernel). -/
def natStrAux : Nat → Nat → List Char
  | 0, _ => []
  | fuel + 1, n =>
      if n = 0 then []
      else natStrAux fuel (n / 10) ++ [Char.ofNat (48 + n % 10)]

/-- Decimal rendering of a natural number. -/
def natStr (n : Nat) : String :=
  if n = 0 then "0" else String.mk (natStrAux (n + 1) n)

/-- Decimal rendering of an integer. -/
def intStr (i : Int) : String :=
  if i < 0 then "-" ++ natStr i.natAbs else natStr i.natAbs

/-- Rendering of a rational (an integer renders like Python's `str`;
non-integers only arise for exotic transports and only feed opaque endpoint
keys). -/
def ratStr (q : ℚ) : String :=
  if q.den = 1 then intStr q.num else intStr q.num ++ "/" ++ natStr q.den

/-- Model of Python `str(x)` / f-string interpolation of a Json value
(container renderings are placeholders: they only ever feed opaque endpoint
keys of the transport oracle). -/
def pyStrOfJson : Json → String
  | .null => "None"
  | .bool true => "True"
  | .bool false => "False"
  | .num q => ratStr q
  | .str s => s
  | .arr _ => "<list>"
  | .obj _ => "<dict>"

/-- Absorb an exception into `None` (`except Exception: return None`). -/
def pyAbsorbOpt (x : Except PyErr (Option Json)) : Option Json :=
  match x with
  | .ok v => v
  | .error _ => none

/-- `OpenLibraryApi.make_request`: `aiohttp.ClientError` (which includes
`raise_for_status` on a non-2xx response) and `ValueError` (JSON parse) are
caught and become `None`; any other exception propagates. -/
def make_request (t : Transport) (e : Endpoint) : Except PyErr (Option Json) :=
  match t.resp e with
  | .ok j => .ok (some j)
  | .clientError => .ok none
  | .parseError => .ok none
  | .raised er => .error er

/-- Body of `OpenLibraryApi.search` (inside its try block):
`if result and result.get("numFound", 0) > 0 and
len(result.get("docs", [])) > 0: return result["docs"][0]`. -/
def searchBody (t : Transport) (query : String) :
    Except PyErr (Option Json) := do
  let result ← make_request t (.search query)
  match result with
  | none => pure none
  | some r =>
      if jsonTruthy r then do
        let nf ← pyGet r "numFound"
        let gt ← pyGtZero (nf.getD (Json.num 0))
        if gt then do
          let docs? ← pyGet r "docs"
          let l ← pyLen (docs?.getD (Json.arr []))
          if 0 < l then do
            let docs ← pyIndexKey r "docs"
            let d ← pyIndexZero docs
            pure (some d)
          else pure none
        else pure none
      else pure none

/-- `OpenLibraryApi.search` (the `params = {"q": query, "limit": ...}` pair
is folded into the endpoint value): catch-all returns None. -/
def search (t : Transport) (query : String) : Option Json :=
  pyAbsorbOpt (searchBody t query)

/-- `OpenLibraryApi.search_book`: query `title:{title}`, limit 1. -/
def search_book (t : Transport) (title : String) : Option Json :=
  search t ("title:" ++ title)

/-- `OpenLibraryApi.get_details`: one GET of `{item_id}.json` with a
catch-all. -/
def get_details (t : Transport) (item_id : String) : Option Json :=
  pyAbsorbOpt (make_request t (.details item_id))

/-- `OpenLibraryApi.get_book_details` (the `lru_cache` decorator is not
modelled: the claims are about a single enrichment call). -/
def get_book_details (t : Transport) (key : String) : Option Json :=
  get_details t key

/-- Body of `OpenLibraryApi.get_book_rating` (inside its try block). -/
def ratingBody (t : Transport) (key : Json) : Except PyErr (Option Json) := do
  let c ← pyContains "/" key
  let work_id ← if c then pySplitLast key else pure key
  let result ← make_request t (.ratings (pyStrOfJson work_id))
  match result with
  | none => pure none
  | some r =>
      if jsonTruthy r then do
        let hs ← pyContains "summary" r
        if hs then do
          let sm ← pyIndexKey r "summary"
          let ha ← pyContains "average" sm
          if ha then do
            let v ← pyIndexKey sm "average"
            pure (some v)
          else pure none
        else pure none
      else pure none

/-- `OpenLibraryApi.get_book_rating`: catch-all returns None. -/
def get_book_rating (t : Transport) (key : Json) : Option Json :=
  pyAbsorbOpt (ratingBody t key)

/-- Default of the OPENLIBRARY_COVERS_URL environment variable. -/
def coversBase : String := "https://covers.openlibrary.org/b"

/-- Body of `OpenLibraryApi.get_cover_url` (size "M"): derive the OLID,
probe the cover image with a HEAD request, return the URL on status 200. -/
def coverBody (t : Transport) (book_id : Json) :
    Except PyErr (Option String) := do
  let c ← pyContains "/" book_id
  let olid ← if c then pySplitLast book_id else pure book_id
  if jsonTruthy olid then
    let cover_url := coversBase ++ "/OLID/" ++ pyStrOfJson olid ++ "-M.jpg"
    match t.head cover_url with
    | .status code => if code = 200 then pure (some cover_url) else pure none
    | .raised e => throw e
  else pure none

/-- `OpenLibraryApi.get_cover_url`: catch-all returns None. -/
def get_cover_url (t : Transport) (book_id : Json) : Option String :=
  match coverBody t book_id with
  | .ok v => v
  | .error _ => none

/-- The entry loop of `get_book_description`: first entry whose
`description` has `type == "/type/text"` yields its `value`. -/
def descEntryScan : List Json → Except PyErr (Option Json)
  | [] => pure none
  | e :: es => do
      let hd ← pyContains "description" e
      if hd then do
        let d ← pyIndexKey e "description"
        let ty ← pyIndexKey d "type"
        if jsonEqStr ty "/type/text" then do
          let v ← pyIndexKey d "value"
          pure (some v)
        else descEntryScan es
      else descEntryScan es

/-- Python iteration `for entry in x` (a string iterates its characters, a
dict its keys; TypeError otherwise). -/
def pyIterList (j : Json) : Except PyErr (List Json) :=
  match j with
  | .arr l => .ok l
  | .str s => .ok (s.data.map (fun c => Json.str (String.mk [c])))
  | .obj l => .ok (l.map (fun p => Json.str p.1))
  | _ => .error .typeError

/-- Body of `OpenLibraryApi.get_book_description` (inside its try block):
GET `{book_data['key']}/editions.json` and scan the entries. -/
def descBody (t : Transport) (book_data : Json) :
    Except PyErr (Option Json) := do
  let key ← pyIndexKey book_data "key"
  let result ← make_request t (.editions (pyStrOfJson key))
  match result with
  | none => pure none
  | some r =>
      if jsonTruthy r then do
        let he ← pyContains "entries" r
        if he then do
          let entries ← pyIndexKey r "entries"
          let l ← pyIterList entries
          descEntryScan l
        else pure none
      else pure none

/-- `OpenLibraryApi.get_book_description`: catch-all returns None. -/
def get_book_description (t : Transport) (book_data : Json) : Option Json :=
  pyAbsorbOpt (descBody t book_data)

/-- Line 204: `work_key = book_search_result.get("key") or
book_search_result.get("work_key")`. -/
def resolveWorkKey (r : Json) : Except PyErr (Option Json) := do
  let k1 ← pyGet r "key"
  match k1 with
  | some v => if jsonTruthy v then pure (some v) else pyGet r "work_key"
  | none => pyGet r "work_key"

/-- Lines 204-209 of `enrich_book_data`: description and rating are
resolved only under `if work_key:` and `if book_details:`; inside, each of
the two is its own best-effort call. -/
def resolveDescRating (t : Transport) (r : Json) :
    Except PyErr (Option Json × Option Json) := do
  let wk ← resolveWorkKey r
  match wk with
  | some w =>
      if jsonTruthy w then
        match get_book_details t (pyStrOfJson w) with
        | some bd =>
            if jsonTruthy bd then
              pure (get_book_description t bd, get_book_rating t w)
            else pure (none, none)
        | none => pure (none, none)
      else pure (none, none)
  | none => pure (none, none)

/-- The `elif "edition_key" in ... and ...[
"edition_key"]:` arm of the cover block (lines 215-218). -/
def coverElif (t : Transport) (r : Json) : Except PyErr (Option String) := do
  let he ← pyContains "edition_key" r
  if he then do
    let ek ← pyIndexKey r "edition_key"
    if jsonTruthy ek then do
      let edition_id ← pyIndexZero ek
      pure (get_cover_url t edition_id)
    else pure none
  else pure none

/-- Lines 211-218 of `enrich_book_data`: direct numeric cover id first,
falling back to probing the first edition's cover. -/
def resolveCover (t : Transport) (r : Json) : Except PyErr (Option String) := do
  let c1 ← pyGet r "cover_i"
  let cover_id ←
    match c1 with
    | some v => if jsonTruthy v then pure (some v) else pyGet r "cover_id"
    | none => pyGet r "cover_id"
  match cover_id with
  | some cv =>
      if jsonTruthy cv then
        pure (some ("https://covers.openlibrary.org/b/id/" ++
          pyStrOfJson cv ++ "-M.jpg"))
      else coverElif t r
  | none => coverElif t r

/-- Validation `EnrichBookData(cover_url=..., description=..., rating=...)`:
the description must be a string (or None), the rating a number (or None);
anything else raises a pydantic ValidationError inside the try block. -/
def mkEnrich (c : Option String) (d r : Option Json) :
    Except PyErr EnrichBookData := do
  let ds ←
    match d with
    | none => pure none
    | some Json.null => pure none
    | some (Json.str s) => pure (some s)
    | some _ => throw PyErr.validationError
  let rt ←
    match r with
    | none => pure none
    | some Json.null => pure none
    | some (Json.num q) => pure (some q)
    | some _ => throw PyErr.validationError
  pure { cover_url := c, description := ds, rating := rt }

/-- The all-empty enrichment result. -/
def emptyEnrich : EnrichBookData := {}

/-- Body of `OpenLibraryApi.enrich_book_data` (inside its try block). -/
def enrichBody (t : Transport) (title : String) :
    Except PyErr EnrichBookData := do
  match search_book t title with
  | none => pure emptyEnrich
  | some r =>
      if jsonTruthy r then do
        let dr ← resolveDescRating t r
        let c ← resolveCover t r
        mkEnrich c dr.1 dr.2
      else pure emptyEnrich

/-- `OpenLibraryApi.enrich_book_data`: the outermost
`except Exception: return EnrichBookData(None, None, None)` absorbs every
failure of the body. -/
def enrich_book_data (t : Transport) (title : String) :
    Except PyErr EnrichBookData :=
  match enrichBody t title with
  | .ok r => .ok r
  | .error _ => .ok emptyEnrich

/-! ### Helper lemmas about the enrichment merge -/

@[simp] lemma applyEnrichment_id (d : BookDict) (e : EnrichBookData) :
    (applyEnrichment d e).id = d.id := by
  rcases e with ⟨c, ds, rt⟩
  cases c <;> cases ds <;> cases rt <;>
    simp only [applyEnrichment, setCover, setDesc, setRating] <;>
    (try split_ifs) <;> rfl

@[simp] lemma applyEnrichment_title (d : BookDict) (e : EnrichBookData) :
    (applyEnrichment d e).title = d.title := by
  rcases e with ⟨c, ds, rt⟩
  cases c <;> cases ds <;> cases rt <;>
    simp only [applyEnrichment, setCover, setDesc, setRating] <;>
    (try split_ifs) <;> rfl

@[simp] lemma applyEnrichment_author (d : BookDict) (e : EnrichBookData) :
    (applyEnrichment d e).author = d.author := by
  rcases e with ⟨c, ds, rt⟩
  cases c <;> cases ds <;> cases rt <;>
    simp only [applyEnrichment, setCover, setDesc, setRating] <;>
    (try split_ifs) <;> rfl

@[simp] lemma applyEnrichment_year (d : BookDict) (e : EnrichBookData) :
    (applyEnrichment d e).publication_year = d.publication_year := by
  rcases e with ⟨c, ds, rt⟩
  cases c <;> cases ds <;> cases rt <;>
    simp only [applyEnrichment, setCover, setDesc, setRating] <;>
    (try split_ifs) <;> rfl

@[simp] lemma applyEnrichment_genre (d : BookDict) (e : EnrichBookData) :
    (applyEnrichment d e).genre = d.genre := by
  rcases e with ⟨c, ds, rt⟩
  cases c <;> cases ds <;> cases rt <;>
    simp only [applyEnrichment, setCover, setDesc, setRating] <;>
    (try split_ifs) <;> rfl

@[simp] lemma applyEnrichment_pages (d : BookDict) (e : EnrichBookData) :
    (applyEnrichment d e).pages = d.pages := by
  rcases e with ⟨c, ds, rt⟩
  cases c <;> cases ds <;> cases rt <;>
    simp only [applyEnrichment, setCover, setDesc, setRating] <;>
    (try split_ifs) <;> rfl

@[simp] lemma applyEnrichment_avail (d : BookDict) (e : EnrichBookData) :
    (applyEnrichment d e).availability = d.availability := by
  rcases e with ⟨c, ds, rt⟩
  cases c <;> cases ds <;> cases rt <;>
    simp only [applyEnrichment, setCover, setDesc, setRating] <;>
    (try split_ifs) <;> rfl

@[simp] lemma applyEnrichment_extra (d : BookDict) (e : EnrichBookData) :
    (applyEnrichment d e).extra = d.extra := by
  rcases e with ⟨c, ds, rt⟩
  cases c <;> cases ds <;> cases rt <;>
    simp only [applyEnrichment, setCover, setDesc, setRating] <;>
    (try split_ifs) <;> rfl

/-- The dict built by `create` (payload dump + assigned id + enrichment
merge) always validates, as `Book` and as `FullBookData`, to the same
record, whose core fields are the payload's and whose id is the assigned
one. -/
lemma enriched_ok (b : BookCreate) (i : Int) (e : EnrichBookData) :
    ∃ bk : Book,
      Book.fromDict (applyEnrichment { b.model_dump with id := some i } e) =
        .ok bk ∧
      FullBookData.fromDict
          (applyEnrichment { b.model_dump with id := some i } e) = .ok bk ∧
      (applyEnrichment { b.model_dump with id := some i } e).id = some i ∧
      bk.id = i ∧ bk.title = b.title ∧ bk.author = b.author ∧
      bk.publication_year = b.publication_year ∧ bk.genre = b.genre ∧
      bk.pages = b.pages ∧ bk.availability = b.availability := by
  have h1 : (applyEnrichment { b.model_dump with id := some i } e).id =
      some i := by simp [BookCreate.model_dump]
  have h2 : (applyEnrichment { b.model_dump with id := some i } e).title =
      some b.title := by simp [BookCreate.model_dump]
  have h3 : (applyEnrichment { b.model_dump with id := some i } e).author =
      some b.author := by simp [BookCreate.model_dump]
  have h4 : (applyEnrichment { b.model_dump with id := some i }
      e).publication_year = some b.publication_year := by
    simp [BookCreate.model_dump]
  have h5 : (applyEnrichment { b.model_dump with id := some i } e).genre =
      some b.genre := by simp [BookCreate.model_dump]
  have h6 : (applyEnrichment { b.model_dump with id := some i } e).pages =
      some b.pages := by simp [BookCreate.model_dump]
  have h7 : (applyEnrichment { b.model_dump with id := some i }
      e).availability = some b.availability := by
    simp [BookCreate.model_dump]
  have h8 : (applyEnrichment { b.model_dump with id := some i } e).extra =
      [] := by simp [BookCreate.model_dump]
  refine ⟨{ id := i, title := b.title, author := b.author,
            publication_year := b.publication_year, genre := b.genre,
            pages := b.pages, availability := b.availability,
            cover_url :=
              (applyEnrichment { b.model_dump with id := some i } e).cover_url,
            description :=
              (applyEnrichment { b.model_dump with id := some i }
                e).description,
            rating :=
              (applyEnrichment { b.model_dump with id := some i } e).rating },
         ?_, ?_, h1, rfl, rfl, rfl, rfl, rfl, rfl, rfl⟩
  · unfold Book.fromDict
    rw [h1, h2, h3, h4, h5, h6, h8]
    simp [h7, BookCreate.model_dump]
  · unfold FullBookData.fromDict
    rw [h1, h2, h3, h4, h5, h6, h7, h8]
    simp [BookCreate.model_dump]

/-! ### Concrete records used by the claim evaluations -/

/-- Sample create payload. -/
def cDune : BookCreate :=
  { title := "Dune", author := "Herbert", publication_year := 1965,
    genre := "SF", pages := 412 }

/-- The dict the JSON backend stores for `cDune` created with id 1 and empty
enrichment. -/
def dDune : BookDict :=
  { id := some 1, title := some "Dune", author := some "Herbert",
    publication_year := some 1965, genre := some "SF", pages := some 412,
    availability := some .available }

/-- The record `cDune` validates to with id 1. -/
def rDune : Book :=
  { id := 1, title := "Dune", author := "Herbert",
    publication_year := 1965, genre := "SF", pages := 412,
    availability := .available }

/-! ### Truthiness-normalisation lemmas (claim C10) -/

lemma setDesc_norm (d : BookDict) (ds : Option String) :
    setDesc d (match ds with
      | some s => if s = "" then none else some s
      | none => none) = setDesc d ds := by
  cases ds with
  | none => rfl
  | some s => by_cases h : s = "" <;> simp [setDesc, h]

lemma setRating_norm (d : BookDict) (rt : Option ℚ) :
    setRating d (match rt with
      | some q => if q = 0 then none else some q
      | none => none) = setRating d rt := by
  cases rt with
  | none => rfl
  | some q => by_cases h : q = 0 <;> simp [setRating, h]

/-- Merging a truthiness-normalised enrichment result is the same as merging
the raw one. -/
lemma applyEnrichment_norm (d : BookDict) (e : EnrichBookData) :
    applyEnrichment d (truthyNorm e) = applyEnrichment d e := by
  rcases e with ⟨c, ds, rt⟩
  simp only [applyEnrichment, truthyNorm]
  rw [setDesc_norm, setRating_norm]

/-- Claim C10 (confirmed): during create and update, an enrichment value
that is present but falsy — a rating equal to 0.0 or an empty-string
description — is treated exactly as if it were absent: merging the
truthiness-normalised enrichment result (falsy values dropped) yields the
same dict, and every service operation that merges enrichment (create and
update, JSON and relational branches) is unchanged by the normalisation;
in particular merging `description=""` together with `rating=0` equals
merging nothing. -/
theorem claim10_thm :
    (∀ (d : BookDict) (e : EnrichBookData),
       applyEnrichment d (truthyNorm e) = applyEnrichment d e) ∧
    (∀ (d : BookDict) (c : Option String),
       applyEnrichment d
           { cover_url := c, description := some "", rating := some 0 } =
         applyEnrichment d { cover_url := c }) ∧
    (∀ (s : JsonState) (b : BookCreate) (p : Provider),
       create_json s b (fun x => truthyNorm (p x)) = create_json s b p) ∧
    (∀ (db : DbState) (b : BookCreate) (p : Provider) (fl : Bool),
       create_db db b (fun x => truthyNorm (p x)) fl = create_db db b p fl) ∧
    (∀ (s : JsonState) (i : Int) (u : BookUpdate) (p : Provider),
       update_json s i u (fun x => truthyNorm (p x)) = update_json s i u p) ∧
    (∀ (db : DbState) (i : Int) (u : BookUpdate) (p : Provider) (fl : Bool),
       update_db db i u (fun x => truthyNorm (p x)) fl =
         update_db db i u p fl) := by
  refine ⟨applyEnrichment_norm, ?_, ?_, ?_, ?_, ?_⟩
  · intro d c
    exact (applyEnrichment_norm d
      { cover_url := c, description := some "", rating := some 0 })
  · intro s b p
    simp [create_json, applyEnrichment_norm]
  · intro db b p fl
    simp [create_db, applyEnrichment_norm]
  · intro s i u p
    cases h : u.title <;> simp [update_json, h, applyEnrichment_norm]
  · intro db i u p fl
    cases h : u.title <;> simp [update_db, h, applyEnrichment_norm]

/-- Claim C7 (confirmed): for every behaviour of the external transport —
any endpoint may return data, fail with a client error, fail to parse, or
raise anything else, at any point of the pipeline — `enrich_book_data`
never raises to its caller: it always returns an `EnrichBookData` result
(the outermost catch-all turns every body failure into the empty result,
leaving unresolved fields empty). -/
theorem claim7_thm : ∀ (t : Transport) (title : String),
    ∃ r, enrich_book_data t title = .ok r := by
  intro t title
  unfold enrich_book_data
  cases enrichBody t title with
  | error e => exact ⟨emptyEnrich, rfl⟩
  | ok r => exact ⟨r, rfl⟩

/-- Claim C6 (corrected): on the relational backend, a storage failure
during `save_data` or `update_data` is rolled back (the table is unchanged)
and re-raised to the caller; but a storage failure during `delete_data` is
rolled back and SWALLOWED — `delete_data` returns normally, surfacing no
error. -/
theorem claim6_amended_thm :
    (∀ (db : DbState) (d : BookDict),
       ∃ e, db_save_data db true d = (.error e, db)) ∧
    (∀ (db : DbState) (d : BookDict),
       db_update_data db true d = (.error .valueError, db)) ∧
    (∀ (db : DbState) (book_id : Int),
       db_delete_data db true book_id = db) := by
  refine ⟨fun db d => ?_, fun db d => ?_, fun db i => rfl⟩
  · cases h : FullBookData.fromDict d with
    | error e => exact ⟨.valueError, by simp [db_save_data, h]⟩
    | ok v => exact ⟨.dbError, by simp [db_save_data, h]⟩
  · cases h : FullBookData.fromDict d with
    | error e => simp [db_update_data, h]
    | ok v => simp [db_update_data, h]

/-- Claim C6 counterexample: with a stored record of id 1 and a storage
layer that raises during the delete, the relational delete reports success
(`True`) and leaves the row in place — the error is not surfaced to the
caller, refuting the claim that every relational operation re-raises
storage failures. -/
theorem claim6_counterexample :
    delete_db ⟨[rDune]⟩ true 1 = (true, ⟨[rDune]⟩) := rfl

/-! ### Concrete failing-input evaluations for the code_bug claims -/

/-- The dict `update` persists for claim C2's failing input: the merged
record plus the stray `"asdasd"` key. -/
def dWarJunk : BookDict :=
  { id := some 1, title := some "War and Peace", author := some "Herbert",
    publication_year := some 1965, genre := some "SF", pages := some 412,
    availability := some .available, extra := ["asdasd"] }

/-- Claim C2 (code_bug evaluation): updating the stored book of id 1 with
payload `{title: "War and Peace"}` (enrichment empty) persists the merged
dict TOGETHER with the stray key `"asdasd"` and then raises a pydantic
ValidationError (`Book` forbids extra fields) instead of returning the
merged record — the caller gets a 500, yet the junk dict is saved. -/
theorem claim2_failing_eval :
    update_json ⟨[dDune], 2⟩ 1 { title := some "War and Peace" }
        emptyProvider =
      (.error .validationError, ⟨[dWarJunk], 2⟩) := rfl

/-- Claim C3 (code_bug evaluation): on the relational backend, updating
only `pages` of the stored book of id 1 raises ValueError (the partial dict
`{pages: 200, id: 1}` fails `FullBookData` validation inside
`update_data`), so the partial update never succeeds at all — no updated
record is persisted or returned. -/
theorem claim3_failing_eval :
    update_db ⟨[rDune]⟩ 1 { pages := some 200 } emptyProvider false =
      (.error .valueError, ⟨[rDune]⟩) := rfl

/-- Claim C5 (code_bug evaluation): a PUT with the body `{}` parses to a
`BookUpdate` with no field set (not to `None`), so the router's
missing-body 400 guard does not fire: the service performs a no-op update
and the route answers 200 with the unchanged record instead of rejecting
with 400. -/
theorem claim5_failing_eval :
    update_book_route ⟨[dDune], 2⟩ 1 (some {}) emptyProvider =
      (.okBook rDune, ⟨[dDune], 2⟩) := rfl

/-! ### Next-id lemmas (claim C1) -/

lemma le_foldl_max (l : List Book) (a : Int) :
    a ≤ l.foldl (fun acc x => max acc x.id) a := by
  induction l generalizing a with
  | nil => simp
  | cons r rs ih => exact le_trans (le_max_left _ _) (ih (max a r.id))

lemma mem_le_foldl_max (l : List Book) (r : Book) (hr : r ∈ l) :
    ∀ a : Int, r.id ≤ l.foldl (fun acc x => max acc x.id) a := by
  induction l with
  | nil => cases hr
  | cons x xs ih =>
      intro a
      cases hr with
      | head => exact le_trans (le_max_right _ _) (le_foldl_max _ _)
      | tail _ h => exact ih h (max a x.id)

lemma foldl_max_mem (l : List Book) (a : Int) :
    l.foldl (fun acc x => max acc x.id) a = a ∨
      ∃ r ∈ l, l.foldl (fun acc x => max acc x.id) a = r.id := by
  induction l generalizing a with
  | nil => left; rfl
  | cons x xs ih =>
      simp only [List.foldl_cons]
      rcases ih (max a x.id) with h | ⟨r, hr, h⟩
      · rcases max_choice a x.id with hm | hm
        · left; rw [h, hm]
        · right; exact ⟨x, List.mem_cons_self x xs, by rw [h, hm]⟩
      · right; exact ⟨r, List.mem_cons_of_mem x hr, h⟩

/-- Every existing row id is strictly below the next id the relational
backend assigns. -/
lemma db_next_id_gt (db : DbState) (r : Book) (hr : r ∈ db.rows) :
    r.id < db_next_id db := by
  rcases hc : db.rows with _ | ⟨x, xs⟩
  · rw [hc] at hr; cases hr
  · rw [hc] at hr
    have hb : r.id ≤ xs.foldl (fun acc y => max acc y.id) x.id := by
      cases hr with
      | head => exact le_foldl_max _ _
      | tail _ h => exact mem_le_foldl_max xs r h _
    have : db_next_id db =
        xs.foldl (fun acc y => max acc y.id) x.id + 1 := by
      simp [db_next_id, db_max_row_id, hc]
    omega

/-- On a non-empty table the next id is one more than some existing row's
id (the maximal one). -/
lemma db_next_id_eq_succ (db : DbState) (hne : db.rows ≠ []) :
    ∃ r ∈ db.rows, db_next_id db = r.id + 1 := by
  rcases hc : db.rows with _ | ⟨x, xs⟩
  · exact absurd hc hne
  · have hv : db_next_id db =
        xs.foldl (fun acc y => max acc y.id) x.id + 1 := by
      simp [db_next_id, db_max_row_id, hc]
    rcases foldl_max_mem xs x.id with h | ⟨r, hr, h⟩
    · exact ⟨x, List.mem_cons_self x xs, by rw [hv, h]⟩
    · exact ⟨r, List.mem_cons_of_mem x hr, by rw [hv, h]⟩

/-- Claim C1 (amended): the id assigned by create depends on the backend.
On the relational backend it is `max existing id + 1` (1 on an empty
table): the created record's id strictly exceeds every existing row's id
and equals some existing row's id plus one when the table is non-empty.
On the file/jsonbin backends it is the persisted `next_id` counter, which
is incremented (never recomputed from the collection) on every create —
so after deleting the record with the maximal id it can differ from
`max id + 1` (see the counterexample). -/
theorem claim1_amended_thm :
    (∀ (db : DbState) (b : BookCreate) (p : Provider),
       ∃ bk db', create_db db b p false = (.ok bk, db') ∧
         (db.rows = [] → bk.id = 1) ∧
         (∀ r ∈ db.rows, r.id < bk.id) ∧
         (db.rows ≠ [] → ∃ r ∈ db.rows, bk.id = r.id + 1)) ∧
    (∀ (s : JsonState) (b : BookCreate) (p : Provider),
       ∃ bk s', create_json s b p = .ok (bk, s') ∧
         bk.id = s.next_id ∧ s'.next_id = s.next_id + 1) := by
  constructor
  · intro db b p
    obtain ⟨bk, hfd, hffd, _, hid, _⟩ :=
      enriched_ok b (db_next_id db) (p b.title)
    refine ⟨bk, ⟨db.rows ++ [bk]⟩, ?_, ?_, ?_, ?_⟩
    · simp [create_db, db_save_data, hfd, hffd]
    · intro h; rw [hid]; simp [db_next_id, db_max_row_id, h]
    · intro r hr; rw [hid]; exact db_next_id_gt db r hr
    · intro hne; rw [hid]; exact db_next_id_eq_succ db hne
  · intro s b p
    obtain ⟨bk, hfd, _, _, hid, _⟩ := enriched_ok b s.next_id (p b.title)
    refine ⟨bk, ⟨s.books ++
      [applyEnrichment { b.model_dump with id := some s.next_id }
        (p b.title)], s.next_id + 1⟩, ?_, hid, rfl⟩
    simp [create_json, hfd]

/-! ### Claim C1 counterexample data: create, create, delete the maximal id,
create again on the JSON backend -/

/-- Second sample create payload. -/
def cWar : BookCreate :=
  { title := "War and Peace", author := "Tolstoy",
    publication_year := 1869, genre := "Novel", pages := 1225 }

/-- Third sample create payload. -/
def cIdiot : BookCreate :=
  { title := "Idiot", author := "Dostoevsky", publication_year := 1869,
    genre := "Novel", pages := 667 }

/-- The dict stored for `cWar` created with id 2. -/
def dWar2 : BookDict :=
  { id := some 2, title := some "War and Peace", author := some "Tolstoy",
    publication_year := some 1869, genre := some "Novel",
    pages := some 1225, availability := some .available }

/-- The record `cWar` validates to with id 2. -/
def rWar2 : Book :=
  { id := 2, title := "War and Peace", author := "Tolstoy",
    publication_year := 1869, genre := "Novel", pages := 1225,
    availability := .available }

/-- State after the first create. -/
def c1s1 : JsonState := ⟨[dDune], 2⟩

/-- State after the second create. -/
def c1s2 : JsonState := ⟨[dDune, dWar2], 3⟩

/-- State after deleting id 2 (the maximal id): one book of id 1 remains
but the persisted counter stays at 3. -/
def c1s3 : JsonState := ⟨[dDune], 3⟩

/-- Claim C1 counterexample: on the file/jsonbin backend, after
create (id 1), create (id 2) and delete of id 2, the collection holds only
the record of id 1, so the claim demands the next create to return id
`1 + 1 = 2`; the code returns id 3 (the persisted counter), refuting the
claim for these backends. -/
theorem claim1_counterexample :
    create_json ⟨[], 1⟩ cDune emptyProvider = .ok (rDune, c1s1) ∧
    create_json c1s1 cWar emptyProvider = .ok (rWar2, c1s2) ∧
    delete_json c1s2 2 = .ok (true, c1s3) ∧
    c1s3.books.map BookDict.id = [some 1] ∧
    (∃ bk s4, create_json c1s3 cIdiot emptyProvider = .ok (bk, s4) ∧
       bk.id = 3 ∧ ¬ bk.id = 1 + 1) :=
  ⟨rfl, rfl, rfl, rfl, _, _, rfl, rfl, by decide⟩

/-- Claim C1 witness for the amended theorem: at a concrete one-row table
and a concrete JSON state the amended id characterisation is realised. -/
theorem claim1_witness :
    (∃ bk db', create_db ⟨[rDune]⟩ cWar emptyProvider false =
        (.ok bk, db') ∧
       ((⟨[rDune]⟩ : DbState).rows = [] → bk.id = 1) ∧
       (∀ r ∈ (⟨[rDune]⟩ : DbState).rows, r.id < bk.id) ∧
       ((⟨[rDune]⟩ : DbState).rows ≠ [] →
         ∃ r ∈ (⟨[rDune]⟩ : DbState).rows, bk.id = r.id + 1)) ∧
    (∃ bk s', create_json c1s3 cIdiot emptyProvider = .ok (bk, s') ∧
       bk.id = c1s3.next_id ∧ s'.next_id = c1s3.next_id + 1) :=
  ⟨claim1_amended_thm.1 ⟨[rDune]⟩ cWar emptyProvider,
   claim1_amended_thm.2 c1s3 cIdiot emptyProvider⟩

/-! ### Filtering lemmas (claim C4) -/

/-- Every stored dict of the state is a complete well-formed record. -/
def jsonWF (s : JsonState) : Bool := s.books.all dictOk

lemma opt_eq_getD {α : Type} (o : Option α) (v : α) (h : o.isSome = true) :
    o = some (o.getD v) := by
  cases o with
  | none => cases h
  | some x => rfl

lemma dictOk_fields (d : BookDict) (h : dictOk d = true) :
    d.id = some (d.id.getD 0) ∧ d.title = some (d.title.getD "") ∧
    d.author = some (d.author.getD "") ∧
    d.publication_year = some (d.publication_year.getD 0) ∧
    d.genre = some (d.genre.getD "") ∧ d.pages = some (d.pages.getD 0) ∧
    d.extra = [] := by
  unfold dictOk at h
  simp only [Bool.and_eq_true] at h
  obtain ⟨⟨⟨⟨⟨⟨h1, h2⟩, h3⟩, h4⟩, h5⟩, h6⟩, h7⟩ := h
  exact ⟨opt_eq_getD _ _ h1, opt_eq_getD _ _ h2, opt_eq_getD _ _ h3,
    opt_eq_getD _ _ h4, opt_eq_getD _ _ h5, opt_eq_getD _ _ h6,
    List.isEmpty_iff.mp h7⟩

/-- A complete dict validates to `bookOf`. -/
lemma dictOk_fromDict (d : BookDict) (h : dictOk d = true) :
    Book.fromDict d = .ok (bookOf d) := by
  obtain ⟨h1, h2, h3, h4, h5, h6, h7⟩ := dictOk_fields d h
  unfold Book.fromDict
  rw [h7, h1, h2, h3, h4, h5, h6]
  simp [bookOf]

lemma json_filter_keep_author (a : String) (ha : ¬ a = "") (d : BookDict)
    (hs : d.author = some (d.author.getD "")) :
    json_filter_keep (some a) none none d =
      .ok (lowerStr (d.author.getD "") == lowerStr a) := by
  simp only [json_filter_keep, json_filter_keep2, json_filter_keep3]
  rw [if_neg ha, hs]
  by_cases hb : lowerStr (d.author.getD "") == lowerStr a <;> simp [hb]

lemma json_filter_keep_genre (g : String) (hg : ¬ g = "") (d : BookDict)
    (hs : d.genre = some (d.genre.getD "")) :
    json_filter_keep none (some g) none d =
      .ok (lowerStr (d.genre.getD "") == lowerStr g) := by
  simp only [json_filter_keep, json_filter_keep2, json_filter_keep3]
  rw [if_neg hg, hs]
  by_cases hb : lowerStr (d.genre.getD "") == lowerStr g <;> simp [hb]

lemma json_collect_author (a : String) (ha : ¬ a = "") :
    ∀ l : List BookDict, l.all dictOk = true →
      json_collect (some a) none none l =
        .ok ((l.filter
          (fun d => lowerStr (d.author.getD "") == lowerStr a)).map bookOf)
  | [], _ => rfl
  | d :: ds, h => by
      simp only [List.all_cons, Bool.and_eq_true] at h
      obtain ⟨hd, hds⟩ := h
      have hk := json_filter_keep_author a ha d (dictOk_fields d hd).2.2.1
      have ih := json_collect_author a ha ds hds
      unfold json_collect
      rw [hk]
      by_cases hb : lowerStr (d.author.getD "") == lowerStr a <;>
        simp [hb, dictOk_fromDict d hd, ih, List.filter_cons]

lemma json_collect_genre (g : String) (hg : ¬ g = "") :
    ∀ l : List BookDict, l.all dictOk = true →
      json_collect none (some g) none l =
        .ok ((l.filter
          (fun d => lowerStr (d.genre.getD "") == lowerStr g)).map bookOf)
  | [], _ => rfl
  | d :: ds, h => by
      simp only [List.all_cons, Bool.and_eq_true] at h
      obtain ⟨hd, hds⟩ := h
      have hk := json_filter_keep_genre g hg d (dictOk_fields d hd).2.2.2.2.1
      have ih := json_collect_genre g hg ds hds
      unfold json_collect
      rw [hk]
      by_cases hb : lowerStr (d.genre.getD "") == lowerStr g <;>
        simp [hb, dictOk_fromDict d hd, ih, List.filter_cons]

/-- Claim C4 (amended): filtering is backend-dependent.  On the file/jsonbin
backends the list operation returns exactly the records whose author
(respectively genre) matches the filter value case-insensitively, sliced by
offset/limit.  On the relational backend, `filter_by` performs
case-SENSITIVE equality, so only exact-case matches are returned (see the
counterexample for the Tolstoy scenario). -/
theorem claim4_amended_thm :
    (∀ (s : JsonState) (a : String) (off lim : Nat),
       ¬ a = "" → jsonWF s = true →
       get_all_json s off lim (some a) none none =
         .ok ((((s.books.filter
           (fun d => lowerStr (d.author.getD "") == lowerStr a)).map
             bookOf).drop off).take lim)) ∧
    (∀ (s : JsonState) (g : String) (off lim : Nat),
       ¬ g = "" → jsonWF s = true →
       get_all_json s off lim none (some g) none =
         .ok ((((s.books.filter
           (fun d => lowerStr (d.genre.getD "") == lowerStr g)).map
             bookOf).drop off).take lim)) ∧
    (∀ (db : DbState) (a : String) (off lim : Nat), ¬ a = "" →
       get_all_db db off lim (some a) none none =
         ((db.rows.filter (fun r => r.author == a)).drop off).take lim) ∧
    (∀ (db : DbState) (g : String) (off lim : Nat), ¬ g = "" →
       get_all_db db off lim none (some g) none =
         ((db.rows.filter (fun r => r.genre == g)).drop off).take lim) := by
  refine ⟨?_, ?_, ?_, ?_⟩
  · intro s a off lim ha hwf
    unfold get_all_json
    rw [json_collect_author a ha s.books hwf]
  · intro s g off lim hg hwf
    unfold get_all_json
    rw [json_collect_genre g hg s.books hwf]
  · intro db a off lim ha
    simp [get_all_db, db_load_data, truthyOptStr, ha, Bool.and_true]
  · intro db g off lim hg
    simp [get_all_db, db_load_data, truthyOptStr, hg, Bool.and_true,
      Bool.true_and]

/-! ### Claim C4 concrete data: the Tolstoy scenario -/

/-- Row of id 1, author "Tolstoy". -/
def rTol1 : Book :=
  { id := 1, title := "War and Peace", author := "Tolstoy",
    publication_year := 1869, genre := "Novel", pages := 1225,
    availability := .available }

/-- Row of id 2, author "tolstoy". -/
def rTol2 : Book := { rTol1 with id := 2, author := "tolstoy" }

/-- Row of id 3, author "Dostoevsky". -/
def rTol3 : Book := { rTol1 with id := 3, author := "Dostoevsky" }

/-- The Tolstoy collection on the relational backend. -/
def dbTol : DbState := ⟨[rTol1, rTol2, rTol3]⟩

/-- The Tolstoy collection on the JSON backends. -/
def jsTol : JsonState := ⟨[rowToDict rTol1, rowToDict rTol2, rowToDict rTol3], 4⟩

/-- Claim C4 counterexample: on the relational backend, filtering the
collection with authors "Tolstoy", "tolstoy", "Dostoevsky" by
author="Tolstoy" returns only the exact-case record of id 1, although
exactly the records of ids 1 and 2 match case-insensitively — refuting the
claim that every backend filters case-insensitively. -/
theorem claim4_counterexample :
    (get_all_db dbTol 0 100 (some "Tolstoy") none none).map Book.id = [1] ∧
    (dbTol.rows.filter
      (fun r => lowerStr r.author == lowerStr "Tolstoy")).map Book.id =
        [1, 2] := by
  exact ⟨rfl, by decide⟩

/-- Claim C4 witness: the amended theorem applied to the concrete Tolstoy
collections — the JSON backend returns both case-insensitive matches, the
relational backend only the exact-case one. -/
theorem claim4_witness :
    get_all_json jsTol 0 100 (some "Tolstoy") none none =
      .ok [bookOf (rowToDict rTol1), bookOf (rowToDict rTol2)] ∧
    get_all_db dbTol 0 100 (some "Tolstoy") none none = [rTol1] :=
  ⟨(claim4_amended_thm.1 jsTol "Tolstoy" 0 100 (by decide)
      (by decide)).trans rfl,
   (claim4_amended_thm.2.2.1 dbTol "Tolstoy" 0 100 (by decide)).trans
      rfl⟩

/-! ### Round-trip lemmas (claim C9) -/

lemma json_find_book_append (i : Int) (nd : BookDict) :
    ∀ l : List BookDict,
      (l.all (fun d => d.id.isSome && (d.id != some i))) = true →
      json_find_book i (l ++ [nd]) = json_find_book i [nd]
  | [], _ => rfl
  | d :: ds, h => by
      simp only [List.all_cons, Bool.and_eq_true] at h
      obtain ⟨⟨h1, h2⟩, h3⟩ := h
      obtain ⟨j, hj⟩ := Option.isSome_iff_exists.mp h1
      have hne : (j == i) = false := by
        rw [hj] at h2
        have hj2 : j ≠ i := by simpa using h2
        simpa using hj2
      rw [List.cons_append]
      simp [json_find_book, hj, hne, json_find_book_append i nd ds h3]

lemma find?_append_of_prefix_false {α : Type} (pb : α → Bool)
    (l : List α) (x : α) (h : ∀ r ∈ l, pb r = false) :
    (l ++ [x]).find? pb = if pb x then some x else none := by
  induction l with
  | nil => cases hpb : pb x <;> simp [List.find?, hpb]
  | cons y ys ih =>
      rw [List.cons_append]
      simp [List.find?, h y (List.mem_cons_self y ys),
        ih (fun r hr => h r (List.mem_cons_of_mem y hr))]

/-- Claim C9 (confirmed): creating a book and immediately fetching it by
the returned id yields the created record back.  On the JSON backends the
fetched record is identical to the created one (enrichment fields
included), provided the stored collection does not already contain the
id being assigned (which holds for every collection the service itself
built).  On the relational backend the fetched row agrees with the created
record on every non-enrichment field — identical except possibly the
enrichment fields, as the claim allows. -/
theorem claim9_thm :
    (∀ (s : JsonState) (b : BookCreate) (p : Provider),
       (s.books.all (fun d => d.id.isSome && (d.id != some s.next_id)))
         = true →
       ∃ bk s', create_json s b p = .ok (bk, s') ∧
         get_by_id_json s' bk.id = .ok (some bk)) ∧
    (∀ (db : DbState) (b : BookCreate) (p : Provider),
       ∃ bk db', create_db db b p false = (.ok bk, db') ∧
         ∃ fetched, get_by_id_db db' bk.id = some fetched ∧
           fetched.id = bk.id ∧ fetched.title = bk.title ∧
           fetched.author = bk.author ∧
           fetched.publication_year = bk.publication_year ∧
           fetched.genre = bk.genre ∧ fetched.pages = bk.pages ∧
           fetched.availability = bk.availability) := by
  constructor
  · intro s b p h
    obtain ⟨bk, hfd, _, hdid, hid, _⟩ := enriched_ok b s.next_id (p b.title)
    refine ⟨bk, ⟨s.books ++
      [applyEnrichment { b.model_dump with id := some s.next_id }
        (p b.title)], s.next_id + 1⟩, ?_, ?_⟩
    · simp [create_json, hfd]
    · show json_find_book bk.id _ = .ok (some bk)
      rw [hid, json_find_book_append s.next_id _ s.books h]
      simp [json_find_book, hdid, hfd]
  · intro db b p
    obtain ⟨bk, hfd, hffd, _, hid, _⟩ :=
      enriched_ok b (db_next_id db) (p b.title)
    refine ⟨bk, ⟨db.rows ++ [bk]⟩, ?_, bk, ?_, rfl, rfl, rfl, rfl, rfl,
      rfl, rfl⟩
    · simp [create_db, db_save_data, hfd, hffd]
    · have hpref : ∀ r ∈ db.rows, (r.id == bk.id) = false := by
        intro r hr
        have hlt := db_next_id_gt db r hr
        rw [← hid] at hlt
        have : r.id ≠ bk.id := by omega
        simpa using this
      unfold get_by_id_db
      rw [find?_append_of_prefix_false _ db.rows bk hpref]
      simp

/-- Claim C9 witness: the round-trip realised on the concrete JSON state
holding one record of id 1 with counter 3 (the create payload gets id 3 and
is immediately fetched back identically). -/
theorem claim9_witness :
    ((c1s3.books.all
       (fun d => d.id.isSome && (d.id != some c1s3.next_id))) = true) ∧
    (∃ bk s', create_json c1s3 cIdiot emptyProvider = .ok (bk, s') ∧
       get_by_id_json s' bk.id = .ok (some bk)) :=
  ⟨by decide, claim9_thm.1 c1s3 cIdiot emptyProvider (by decide)⟩

/-! ### Enrichment step-independence (claim C8) -/

@[simp] lemma except_bind_ok {ε α β : Type} (a : α) (f : α → Except ε β) :
    (Except.ok a : Except ε α) >>= f = f a := rfl

@[simp] lemma except_pure_eq {ε α : Type} (a : α) :
    (pure a : Except ε α) = .ok a := rfl

/-- Claim C8 (amended): the pipeline steps are not all independent.
(i) If the work key resolves and is truthy but the detail-record fetch
returns nothing, BOTH description and rating are left empty (the rating
step is gated on the detail fetch, although it only needs the work key).
(ii) When the detail record is fetched and truthy, description and rating
are each resolved by their own best-effort call — failure of one leaves
the other's result intact.  (iii) Cover resolution is independent of the
other steps: it depends on the transport only through the cover HEAD
probe. -/
theorem claim8_amended_thm :
    (∀ (t : Transport) (r w : Json),
       resolveWorkKey r = .ok (some w) → jsonTruthy w = true →
       get_book_details t (pyStrOfJson w) = none →
       resolveDescRating t r = .ok (none, none)) ∧
    (∀ (t : Transport) (r w bd : Json),
       resolveWorkKey r = .ok (some w) → jsonTruthy w = true →
       get_book_details t (pyStrOfJson w) = some bd → jsonTruthy bd = true →
       resolveDescRating t r =
         .ok (get_book_description t bd, get_book_rating t w)) ∧
    (∀ (t t' : Transport) (r : Json), t.head = t'.head →
       resolveCover t r = resolveCover t' r) := by
  refine ⟨?_, ?_, ?_⟩
  · intro t r w h1 h2 h3
    simp [resolveDescRating, h1, h2, h3]
  · intro t r w bd h1 h2 h3 h4
    simp [resolveDescRating, h1, h2, h3, h4]
  · intro t t' r hh
    have hcov : ∀ b : Json, get_cover_url t b = get_cover_url t' b := by
      intro b
      unfold get_cover_url coverBody
      rw [hh]
    unfold resolveCover coverElif
    simp only [hcov]

/-- The first search hit used by the claim C8 scenarios. -/
def doc8 : Json :=
  Json.obj [("key", Json.str "/works/OL1W"), ("cover_i", Json.num 5)]

/-- Transport for the claim C8 counterexample: the search succeeds (work
key and numeric cover id present), the detail-record fetch fails with a
network error, but the ratings endpoint would answer with average 4. -/
def t8 : Transport :=
  { resp := fun e =>
      match e with
      | .search q =>
          if q == "title:Dune" then
            .ok (Json.obj [("numFound", Json.num 1),
                           ("docs", Json.arr [doc8])])
          else .clientError
      | .details _ => .clientError
      | .editions _ => .clientError
      | .ratings w =>
          if w == "OL1W" then
            .ok (Json.obj [("summary",
                            Json.obj [("average", Json.num 4)])])
          else .clientError
    head := fun _ => .status 404 }

/-- Claim C8 counterexample: with transport `t8` the rating step alone
succeeds (the ratings endpoint resolves average 4 for the work key), yet
`enrich_book_data` returns rating `None` — because the failing
detail-record step also suppresses the rating step; only the independent
cover step resolves.  This refutes the claim that failure at one step
leaves only that step's field empty. -/
theorem claim8_counterexample :
    enrich_book_data t8 "Dune" =
      .ok { cover_url := some "https://covers.openlibrary.org/b/id/5-M.jpg" } ∧
    get_book_rating t8 (Json.str "/works/OL1W") = some (Json.num 4) :=
  ⟨rfl, rfl⟩

/-- Detail record served by the claim C8 witness transport. -/
def bd8 : Json :=
  Json.obj [("key", Json.str "/works/OL1W"), ("title", Json.str "Dune")]

/-- Transport like `t8` but with the detail-record fetch succeeding. -/
def t8b : Transport :=
  { resp := fun e =>
      match e with
      | .search q =>
          if q == "title:Dune" then
            .ok (Json.obj [("numFound", Json.num 1),
                           ("docs", Json.arr [doc8])])
          else .clientError
      | .details k => if k == "/works/OL1W" then .ok bd8 else .clientError
      | .editions _ => .clientError
      | .ratings w =>
          if w == "OL1W" then
            .ok (Json.obj [("summary",
                            Json.obj [("average", Json.num 4)])])
          else .clientError
    head := fun _ => .status 404 }

/-- Claim C8 witness: the amended gating/independence statements applied at
the concrete transports. -/
theorem claim8_witness :
    resolveDescRating t8 doc8 = .ok (none, none) ∧
    resolveDescRating t8b doc8 =
      .ok (get_book_description t8b bd8,
           get_book_rating t8b (Json.str "/works/OL1W")) ∧
    resolveCover t8 doc8 = resolveCover t8 doc8 :=
  ⟨claim8_amended_thm.1 t8 doc8 (Json.str "/works/OL1W") rfl rfl rfl,
   claim8_amended_thm.2.1 t8b doc8 (Json.str "/works/OL1W") bd8 rfl rfl
     rfl rfl,
   claim8_amended_thm.2.2 t8 t8 doc8 rfl⟩
